import Mathlib

/-!
Shallow embedding of the store-newsletter client core:
  - src/react/Newsletter.tsx (payload builders, validation, submit handler,
    dedup useMemo handler, render branches)
  - src/components/NewsletterContext (reducer, provider dataflow, hooks);
    its source is present as src/unnamed/part_001.
JavaScript values are modelled as follows: `string | null | undefined`
becomes `Option String`, truthiness of such a value is `some s` with
`s != ""`, ApolloError values are modelled as `String`, and the `any`-typed
`data` fields of the two remote-operation states get the concrete record
shapes the code reads from them (`createDocument.documentId` for the legacy
mutation, `documents` for the dedup query).
-/

namespace StoreNewsletter

/-- A custom field collected by auxiliary input blocks (interface CustomField
in Newsletter.tsx: name plus a possibly null/undefined value). -/
structure CustomField where
  cfName : String
  cfValue : Option String
deriving DecidableEq, Repr

/-- Truthiness of a JS `string | null | undefined` value: defined and
non-empty. -/
def truthyStr : Option String → Bool
  | some s => s != ""
  | none => false

/-- Modelled from the spec: the constants module (src/react/Const) imported by
Newsletter.tsx is absent from src/. The schema registration script
src/schemas/newsLetter.js targets data entity NL with schema newsLetterV1, so
those are the modelled values; no claim depends on the concrete strings. -/
def NEWS_LETTER_MASTER_DATA_ACRONYM : String := "NL"

/-- Modelled from the spec: see NEWS_LETTER_MASTER_DATA_ACRONYM. -/
def NEWS_LETTER_MASTER_DATA_SCHEMA : String := "newsLetterV1"

/-- One `\x7bkey, value\x7d` entry of the legacy create-mutation document. -/
structure KeyValue where
  key : String
  value : String
deriving DecidableEq, Repr

/-- The document carried by the legacy create-mutation variables. -/
structure DocumentPayload where
  fields : List KeyValue
deriving DecidableEq, Repr

/-- Variables of the legacy create-mutation (generateMutationVariables'
return value). -/
structure LegacyVars where
  acronym : String
  schema : String
  document : DocumentPayload
deriving DecidableEq, Repr

/-- Model of JSON.stringify over the customFields array. String escaping of
the field contents is elided; no claim inspects the content of this
serialized string, only whether the customFields entry is present. -/
def jsonStringifyCustomFields (cfs : List CustomField) : String :=
  "[" ++ String.intercalate "," (cfs.map (fun cf =>
    "\x7b\"name\":\"" ++ cf.cfName ++ "\",\"value\":" ++
      (match cf.cfValue with
        | some v => "\"" ++ v ++ "\""
        | none => "null") ++ "\x7d")) ++ "]"

/-- generateMutationVariables (Newsletter.tsx lines 45-82): builds the legacy
create-mutation variables. The email pair is pushed first; name and phone are
pushed only when truthy (non-null and non-empty); customFields is pushed
(JSON-serialized) whenever the array is non-null, matching the JS truthiness
of an array value. -/
def generateMutationVariables (email : String) (name phone : Option String)
    (customFields : Option (List CustomField)) : LegacyVars :=
  let fields : List KeyValue := [⟨"email", email⟩]
  let fields := match name with
    | some n => if n != "" then fields ++ [⟨"name", n⟩] else fields
    | none => fields
  let fields := match phone with
    | some p => if p != "" then fields ++ [⟨"phone", p⟩] else fields
    | none => fields
  let fields := match customFields with
    | some cfs => fields ++ [⟨"customFields", jsonStringifyCustomFields cfs⟩]
    | none => fields
  { acronym := NEWS_LETTER_MASTER_DATA_ACRONYM,
    schema := NEWS_LETTER_MASTER_DATA_SCHEMA,
    document := { fields := fields } }

/-- Variables of the native subscribe mutation: top-level email plus a
`fields` JS object, modelled as an insertion-ordered association list whose
values may be null/undefined (the customFields assignments copy possibly
null values verbatim). -/
structure NativeVars where
  email : String
  fields : List (String × Option String)
deriving DecidableEq, Repr

/-- JS object property assignment `obj[k] = v`: an existing key keeps its
position and gets the new value, a new key is appended. -/
def setField (fs : List (String × Option String)) (k : String)
    (v : Option String) : List (String × Option String) :=
  if fs.any (fun p => p.1 == k) then
    fs.map (fun p => if p.1 == k then (k, v) else p)
  else fs ++ [(k, v)]

/-- generateMutationVariablesNative (Newsletter.tsx lines 84-112): builds the
native mutation variables. name and phone are assigned only when truthy;
every custom field is then assigned under its own name. -/
def generateMutationVariablesNative (email : String)
    (name phone : Option String)
    (customFields : Option (List CustomField)) : NativeVars :=
  let fields : List (String × Option String) := []
  let fields := match name with
    | some n => if n != "" then setField fields "name" (some n) else fields
    | none => fields
  let fields := match phone with
    | some p => if p != "" then setField fields "phone" (some p) else fields
    | none => fields
  let fields := match customFields with
    | some cfs => cfs.foldl (fun fs cf => setField fs cf.cfName cf.cfValue) fields
    | none => fields
  { email := email, fields := fields }

/-- The `createDocument` payload of a successful legacy create-mutation
response. -/
structure CreateDocumentRef where
  documentId : String
deriving DecidableEq, Repr

/-- Shape the code reads from the legacy mutation's `data` field:
`data?.createDocument?.documentId`. -/
structure MutationData where
  createDocument : Option CreateDocumentRef
deriving DecidableEq, Repr

/-- One document returned by the dedup query (projected to its email). -/
structure DocumentEntry where
  docEmail : String
deriving DecidableEq, Repr

/-- Shape the code reads from the dedup query's `data` field:
`data?.documents?.length`. -/
structure QueryData where
  documents : Option (List DocumentEntry)
deriving DecidableEq, Repr

/-- SubmissionState (NewsletterContext) as held for the legacy mutation:
`\x7berror, data, loading\x7d` with the data given its concrete read shape. -/
structure MutationState where
  error : Option String
  data : Option MutationData
  loading : Bool
deriving DecidableEq, Repr

/-- SubmissionState as held for the dedup query. -/
structure QueryState where
  error : Option String
  data : Option QueryData
  loading : Bool
deriving DecidableEq, Repr

/-- The State record of NewsletterContext. The three function-valued fields
(the lazy-query trigger and the two mutation functions) are opaque to the
reducer and the renderer; they are modelled by a type parameter F. -/
structure State (F : Type) where
  email : String
  name : Option String
  phone : Option String
  customFields : Option (List CustomField)
  confirmation : Option Bool
  invalidEmail : Bool
  invalidName : Bool
  invalidPhone : Bool
  submission : MutationState
  validNewsLetter : QueryState
  validNewsLetterCustom : F
  subscribe : F
  subscribeCustom : F
deriving DecidableEq, Repr

/-- The closed union of dispatched actions (type Action in
NewsletterContext). -/
inductive Action where
  | UPDATE_EMAIL (value : String)
  | UPDATE_NAME (value : Option String)
  | UPDATE_PHONE (value : Option String)
  | UPDATE_CONFIRMATION (value : Option Bool)
  | SET_INVALID_EMAIL (value : Bool)
  | SET_INVALID_NAME (value : Bool)
  | SET_INVALID_PHONE (value : Bool)
  | SET_CUSTOM_VALUES (value : Option (List CustomField))
  | SET_MUTATION_VALUES (value : MutationState)
  | SET_QUERY_VALUES (value : QueryState)
deriving DecidableEq, Repr

/-- newsletterContextReducer (src/unnamed/part_001 lines 118-186): each case
spreads the previous state and replaces the targeted field. -/
def newsletterContextReducer {F : Type} (state : State F) (action : Action) :
    State F :=
  match action with
  | .UPDATE_EMAIL v => { state with email := v }
  | .UPDATE_NAME v => { state with name := v }
  | .UPDATE_PHONE v => { state with phone := v }
  | .UPDATE_CONFIRMATION v => { state with confirmation := v }
  | .SET_INVALID_EMAIL v => { state with invalidEmail := v }
  | .SET_INVALID_NAME v => { state with invalidName := v }
  | .SET_INVALID_PHONE v => { state with invalidPhone := v }
  | .SET_CUSTOM_VALUES v => { state with customFields := v }
  | .SET_MUTATION_VALUES v => { state with submission := v }
  | .SET_QUERY_VALUES v => { state with validNewsLetter := v }

/-- The initial state passed to useReducer (src/unnamed/part_001 lines
193-215): before any remote call, useMutation reports data undefined,
loading false, error undefined, while the validNewsLetter slot starts with
loading true and no data. -/
def initialState : State Unit :=
  { email := "", name := none, phone := none, customFields := none,
    confirmation := none,
    invalidEmail := false, invalidName := false, invalidPhone := false,
    submission := { error := none, data := none, loading := false },
    validNewsLetter := { error := none, data := none, loading := true },
    validNewsLetterCustom := (), subscribe := (), subscribeCustom := () }

/-- useNewsletterState (src/unnamed/part_001 lines 242-252): reading the
state context outside a provider throws; modelled with Except. -/
def useNewsletterState (F : Type) (context : Option (State F)) :
    Except String (State F) :=
  match context with
  | none =>
      .error "useNewsletterState must be used within a NewsletterContextProvider"
  | some s => .ok s

/-- useNewsletterDispatch (src/unnamed/part_001 lines 254-264): reading the
dispatch context outside a provider throws; the dispatch function itself is
opaque, modelled by a type parameter. -/
def useNewsletterDispatch (D : Type) (context : Option D) : Except String D :=
  match context with
  | none =>
      .error "useNewsletterDispatch must be used within a NewsletterContextProvider"
  | some d => .ok d

/-- Whether the first character list is an initial segment of the second. -/
def startsWithCL : List Char → List Char → Bool
  | [], _ => true
  | _ :: _, [] => false
  | a :: as, b :: bs => a == b && startsWithCL as bs

/-- Whether the first character list occurs as a contiguous segment of the
second. -/
def containsCL (pat : List Char) : List Char → Bool
  | [] => startsWithCL pat []
  | a :: rest => startsWithCL pat (a :: rest) || containsCL pat rest

/-- Whether one string occurs inside another (used to state that the thrown
messages name the missing provider). -/
def strContains (s sub : String) : Bool :=
  containsCL sub.toList s.toList

/-- Splitting accumulator: collects the current segment (reversed) while
walking the character list. -/
def splitOnCharAux (c : Char) : List Char → List Char → List (List Char)
  | [], acc => [acc.reverse]
  | a :: rest, acc =>
      if a == c then acc.reverse :: splitOnCharAux c rest []
      else splitOnCharAux c rest (a :: acc)

/-- Split a character list on a separator character; the separator is not
kept, and empty segments are kept. -/
def splitOnChar (c : Char) (l : List Char) : List (List Char) :=
  splitOnCharAux c l []

/-- Modelled from the spec: the validators module
(src/react/modules/formValidators) imported by Newsletter.tsx is absent from
src/. Spec 4.1: true iff the string matches a standard local@domain.tld
pattern — here: no spaces, exactly one at-sign, non-empty local part, and a
domain whose dot-separated parts number at least two and are all
non-empty. -/
def validateEmail (s : String) : Bool :=
  let cs := s.toList
  (!cs.any (fun c => c == ' ')) &&
  (match splitOnChar '@' cs with
    | [loc, dom] =>
        (!loc.isEmpty) &&
        (let parts := splitOnChar '.' dom
         decide (parts.length ≥ 2) && parts.all (fun p => !p.isEmpty))
    | _ => false)

/-- Whether a character counts as whitespace for trimming purposes. -/
def isSpaceChar (c : Char) : Bool :=
  c == ' ' || c == '\t' || c == '\n' || c == '\r'

/-- Modelled from the spec: src/react/modules/formValidators is absent from
src/. Spec 4.1: true iff the string is non-empty after trimming — i.e. it
holds at least one non-whitespace character. -/
def validateUserName (s : String) : Bool :=
  s.toList.any (fun c => !isSpaceChar c)

/-- Modelled from the spec: src/react/modules/formValidators is absent from
src/. Spec 4.1: true iff the string is non-empty after trimming — i.e. it
holds at least one non-whitespace character. -/
def validatePhoneNumber (s : String) : Bool :=
  s.toList.any (fun c => !isSpaceChar c)

/-- The field values read by handleSubmit from the newsletter state. -/
structure FormInputs where
  email : String
  name : Option String
  phone : Option String
  customFields : Option (List CustomField)
deriving DecidableEq, Repr

/-- The per-field validity computed by validateFormInputs (Newsletter.tsx
lines 140-167): a null name or phone means that input is not configured and
counts as valid. Returned as (email, name, phone) validity. -/
def fieldValidity (inp : FormInputs) : Bool × Bool × Bool :=
  (validateEmail inp.email,
   match inp.name with
     | none => true
     | some n => validateUserName n,
   match inp.phone with
     | none => true
     | some p => validatePhoneNumber p)

/-- validateFormInputs' return value: isNameValid && isPhoneValid &&
isEmailValid. -/
def formInputsValid (inp : FormInputs) : Bool :=
  let (e, n, p) := fieldValidity inp
  n && p && e

/-- Observable steps of a submission, in program order: dispatched actions,
the analytics push, issuance and settlement of the native write, issuance
and resolution of the dedup query, and issuance of the legacy
create-mutation. -/
inductive Effect where
  | dispatch (a : Action)
  | pixelPush (id : Option String) (name : Option String) (email : String)
      (phone : Option String)
  | subscribeNativeIssue (vars : NativeVars)
  | subscribeNativeSettle
  | dedupQueryIssue (acronym schema : String) (fields : List String)
      (whereClause : String)
  | dedupQueryResolve (data : Option QueryData)
  | subscribeLegacyIssue (vars : LegacyVars)
deriving DecidableEq, Repr

/-- handleSubmit (Newsletter.tsx lines 183-223) as the ordered trace of its
observable effects: always the three invalid-flag dispatches from
validateFormInputs; then, only when every field is valid, the pixel event,
the native mutation issuance, the await of its settlement (the catch
swallows a rejection but still waits for it), and the issuance of the dedup
query. -/
def handleSubmitTrace (inp : FormInputs) (customEventId : Option String) :
    List Effect :=
  let (isEmailValid, isNameValid, isPhoneValid) := fieldValidity inp
  let validationDispatches : List Effect :=
    [.dispatch (.SET_INVALID_EMAIL (!isEmailValid)),
     .dispatch (.SET_INVALID_NAME (!isNameValid)),
     .dispatch (.SET_INVALID_PHONE (!isPhoneValid))]
  if !(isNameValid && isPhoneValid && isEmailValid) then
    validationDispatches
  else
    validationDispatches ++
      [.pixelPush customEventId inp.name inp.email inp.phone,
       .subscribeNativeIssue
         (generateMutationVariablesNative inp.email inp.name inp.phone
           inp.customFields),
       .subscribeNativeSettle,
       .dedupQueryIssue NEWS_LETTER_MASTER_DATA_ACRONYM
         NEWS_LETTER_MASTER_DATA_SCHEMA ["email"] ("email=" ++ inp.email)]

/-- The value dispatched by the useMemo handler when the dedup query finds an
existing document: a synthetic successful submission with the placeholder
identifier. -/
def placeholderSuccess : MutationState :=
  { error := none,
    data := some { createDocument := some { documentId := "default-id" } },
    loading := false }

/-- The useMemo dedup handler (Newsletter.tsx lines 225-239) as the trace of
its effects once the query data slot holds `data`. The optional chain
`data?.documents?.length` yields undefined when data or documents is
missing, and in JS both `undefined <= 0` and `undefined > 0` are false, so
the handler does nothing until actual data arrives. With a document count of
zero it issues the legacy create-mutation; with a positive count it
dispatches the placeholder success instead. -/
def dedupHandlerTrace (data : Option QueryData) (legacyVars : LegacyVars) :
    List Effect :=
  let len : Option Nat := data.bind (fun d => d.documents.map List.length)
  (match len with
    | some n => if n ≤ 0 then [Effect.subscribeLegacyIssue legacyVars] else []
    | none => []) ++
  (match len with
    | some n => if n > 0 then [Effect.dispatch (.SET_MUTATION_VALUES placeholderSuccess)] else []
    | none => [])

/-- One whole submission as a trace: the handleSubmit trace, and — when the
inputs were valid, so the dedup query was actually issued — the resolution
of that query followed by the useMemo handler's reaction to its data. -/
def submissionTrace (inp : FormInputs) (customEventId : Option String)
    (queryData : Option QueryData) : List Effect :=
  handleSubmitTrace inp customEventId ++
    (if formInputsValid inp then
      Effect.dedupQueryResolve queryData ::
        dedupHandlerTrace queryData
          (generateMutationVariables inp.email inp.name inp.phone
            inp.customFields)
    else [])

/-- Which of the view-override props (ErrorState, SuccessState,
LoadingState) were supplied to the form. -/
structure RenderProps where
  hasErrorState : Bool
  hasSuccessState : Bool
  hasLoadingState : Bool
deriving DecidableEq, Repr

/-- The rendered output of the Newsletter component: the loading override,
the error view (custom or default message), the success view (the custom one
receiving the subscribed user data), or the form shell with its children. -/
inductive View where
  | loadingView
  | errorView (custom : Bool)
  | successView (custom : Bool)
      (subscribedUserData : Option (String × Option String × Option String))
  | formView
deriving DecidableEq, Repr

/-- Truthiness of `submission.data?.createDocument?.documentId`: the whole
optional chain is defined and the identifier is a non-empty string. -/
def truthyDocumentId (data : Option MutationData) : Bool :=
  match data with
  | some md =>
      match md.createDocument with
      | some cd => cd.documentId != ""
      | none => false
  | none => false

/-- The render branches of Newsletter (Newsletter.tsx lines 241-269), in
source order: loading (only with a LoadingState override), then error, then
success on a truthy created-document id, else the form shell. -/
def render (props : RenderProps) {F : Type} (s : State F) : View :=
  if s.submission.loading && props.hasLoadingState then
    .loadingView
  else if s.submission.error.isSome then
    .errorView props.hasErrorState
  else if truthyDocumentId s.submission.data then
    (if props.hasSuccessState then
      .successView true (some (s.email, s.name, s.phone))
    else .successView false none)
  else
    .formView

/-- The created-document identifier reachable through the submission data's
optional chain, when every link is present. -/
def documentIdOf (data : Option MutationData) : Option String :=
  (data.bind (fun md => md.createDocument)).map (fun cd => cd.documentId)

/-- The Presentation Layer as the spec states it (spec section 4.4), written
from its words: four non-overlapping branches in priority order — pending
with a loading override, failed, succeeded with a non-empty
created-identifier (the override receiving the submitted email, name and
phone), otherwise the form shell. -/
def renderSpecced (props : RenderProps) {F : Type} (s : State F) : View :=
  match s.submission.loading && props.hasLoadingState,
      decide (s.submission.error ≠ none),
      Option.any (fun id => id != "") (documentIdOf s.submission.data) with
  | true, _, _ => .loadingView
  | false, true, _ => .errorView props.hasErrorState
  | false, false, true =>
      if props.hasSuccessState then
        .successView true (some (s.email, s.name, s.phone))
      else .successView false none
  | false, false, false => .formView

/-- Recognizer for the legacy create-mutation issuance in a trace. -/
def isLegacyIssue : Effect → Bool
  | .subscribeLegacyIssue _ => true
  | _ => false

/-- Recognizer for the native-write issuance in a trace. -/
def isNativeIssue : Effect → Bool
  | .subscribeNativeIssue _ => true
  | _ => false

/-- Recognizer for the settlement of the native write's promise. -/
def isNativeSettle : Effect → Bool
  | .subscribeNativeSettle => true
  | _ => false

/-- Recognizer for the dedup query's issuance. -/
def isDedupIssue : Effect → Bool
  | .dedupQueryIssue _ _ _ _ => true
  | _ => false

/-- Recognizer for the dedup query's resolution. -/
def isDedupResolve : Effect → Bool
  | .dedupQueryResolve _ => true
  | _ => false

/-- Recognizer for the analytics push. -/
def isPixelPush : Effect → Bool
  | .pixelPush _ _ _ _ => true
  | _ => false

end StoreNewsletter
namespace StoreNewsletter

/-- Shared helper: the fields list built by generateMutationVariables always
starts with the email pair, whatever name, phone and customFields are. -/
theorem generateMutationVariables_email_first (email : String)
    (name phone : Option String) (cfs : Option (List CustomField)) :
    ∃ rest, (generateMutationVariables email name phone cfs).document.fields
      = KeyValue.mk "email" email :: rest := by
  unfold generateMutationVariables
  rcases name with _ | n <;> rcases phone with _ | ph <;>
    rcases cfs with _ | c <;> dsimp only <;> (try split_ifs) <;> exact ⟨_, rfl⟩

/-- C1: when the dedup query resolves with an empty documents list, the
useMemo handler issues the legacy create-mutation exactly once (its whole
reaction is that single issuance), and the variables it carries contain the
pair (key "email", value = the submitted email) in document.fields. -/
theorem dedup_empty_list_invokes_legacy_once (email : String)
    (name phone : Option String) (cfs : Option (List CustomField)) :
    (dedupHandlerTrace (some { documents := some [] })
        (generateMutationVariables email name phone cfs)).countP isLegacyIssue
      = 1 ∧
    dedupHandlerTrace (some { documents := some [] })
        (generateMutationVariables email name phone cfs)
      = [Effect.subscribeLegacyIssue
          (generateMutationVariables email name phone cfs)] ∧
    KeyValue.mk "email" email ∈
      (generateMutationVariables email name phone cfs).document.fields := by
  refine ⟨rfl, rfl, ?_⟩
  obtain ⟨rest, hr⟩ :=
    generateMutationVariables_email_first email name phone cfs
  rw [hr]
  exact List.mem_cons_self _ _

/-- C2: when the dedup query resolves with one or more documents, the useMemo
handler never issues the legacy create-mutation; its whole reaction is one
dispatch setting the submission to a synthetic success whose created-document
identifier is the non-empty placeholder "default-id". -/
theorem dedup_nonempty_never_invokes_legacy (email : String)
    (name phone : Option String) (cfs : Option (List CustomField))
    (d : DocumentEntry) (ds : List DocumentEntry) :
    (dedupHandlerTrace (some { documents := some (d :: ds) })
        (generateMutationVariables email name phone cfs)).countP isLegacyIssue
      = 0 ∧
    dedupHandlerTrace (some { documents := some (d :: ds) })
        (generateMutationVariables email name phone cfs)
      = [Effect.dispatch (.SET_MUTATION_VALUES placeholderSuccess)] ∧
    placeholderSuccess.data
      = some { createDocument := some { documentId := "default-id" } } ∧
    truthyDocumentId placeholderSuccess.data = true := by
  have h : dedupHandlerTrace (some { documents := some (d :: ds) })
      (generateMutationVariables email name phone cfs)
      = [Effect.dispatch (.SET_MUTATION_VALUES placeholderSuccess)] := by
    simp [dedupHandlerTrace]
  exact ⟨by rw [h]; rfl, h, rfl, by decide⟩

/-- C9: while the dedup query's data slot is still undefined (never issued,
pending, or failed) — and likewise when the data carries no documents list —
the useMemo handler does nothing at all: no legacy create-mutation issuance
and no dispatch, because in JS `undefined <= 0` is false. -/
theorem dedup_no_data_does_nothing (v : LegacyVars) :
    dedupHandlerTrace none v = [] ∧
    dedupHandlerTrace (some { documents := none }) v = [] :=
  ⟨rfl, rfl⟩

/-- C10: a configured-but-empty name is treated exactly like an absent one by
both payload builders, whatever phone and customFields are, and likewise a
configured-but-empty phone, whatever name and customFields are; the email key
is always present (and in the legacy document it is always the first fields
entry), and with no custom fields an empty name and phone leave the legacy
payload with only the email pair and the native fields object empty. -/
theorem empty_name_phone_omitted (email : String)
    (name phone : Option String) (cfs : Option (List CustomField)) :
    generateMutationVariables email (some "") phone cfs
      = generateMutationVariables email none phone cfs ∧
    generateMutationVariables email name (some "") cfs
      = generateMutationVariables email name none cfs ∧
    generateMutationVariablesNative email (some "") phone cfs
      = generateMutationVariablesNative email none phone cfs ∧
    generateMutationVariablesNative email name (some "") cfs
      = generateMutationVariablesNative email name none cfs ∧
    (generateMutationVariables email name phone cfs).document.fields.head?
      = some (KeyValue.mk "email" email) ∧
    (generateMutationVariablesNative email name phone cfs).email = email ∧
    (generateMutationVariables email (some "") (some "") none).document.fields
      = [KeyValue.mk "email" email] ∧
    (generateMutationVariablesNative email (some "") (some "") none).fields
      = [] := by
  refine ⟨?_, ?_, ?_, ?_, ?_, rfl, rfl, rfl⟩
  · rcases phone with _ | ph <;> rcases cfs with _ | c <;> rfl
  · rcases name with _ | nm <;> rcases cfs with _ | c <;> rfl
  · rcases phone with _ | ph <;> rcases cfs with _ | c <;> rfl
  · rcases name with _ | nm <;> rcases cfs with _ | c <;> rfl
  · obtain ⟨rest, hr⟩ :=
      generateMutationVariables_email_first email name phone cfs
    rw [hr]
    rfl

/-- The frame condition of spec 4.2, written from its words: the action's
targeted field takes the action's value and every other field of the state is
preserved. One case per action variant, each listing all thirteen fields. -/
def framePreserved {F : Type} (s r : State F) : Action → Prop
  | .UPDATE_EMAIL v =>
      r.email = v ∧ r.name = s.name ∧ r.phone = s.phone ∧
      r.customFields = s.customFields ∧ r.confirmation = s.confirmation ∧
      r.invalidEmail = s.invalidEmail ∧ r.invalidName = s.invalidName ∧
      r.invalidPhone = s.invalidPhone ∧ r.submission = s.submission ∧
      r.validNewsLetter = s.validNewsLetter ∧
      r.validNewsLetterCustom = s.validNewsLetterCustom ∧
      r.subscribe = s.subscribe ∧ r.subscribeCustom = s.subscribeCustom
  | .UPDATE_NAME v =>
      r.email = s.email ∧ r.name = v ∧ r.phone = s.phone ∧
      r.customFields = s.customFields ∧ r.confirmation = s.confirmation ∧
      r.invalidEmail = s.invalidEmail ∧ r.invalidName = s.invalidName ∧
      r.invalidPhone = s.invalidPhone ∧ r.submission = s.submission ∧
      r.validNewsLetter = s.validNewsLetter ∧
      r.validNewsLetterCustom = s.validNewsLetterCustom ∧
      r.subscribe = s.subscribe ∧ r.subscribeCustom = s.subscribeCustom
  | .UPDATE_PHONE v =>
      r.email = s.email ∧ r.name = s.name ∧ r.phone = v ∧
      r.customFields = s.customFields ∧ r.confirmation = s.confirmation ∧
      r.invalidEmail = s.invalidEmail ∧ r.invalidName = s.invalidName ∧
      r.invalidPhone = s.invalidPhone ∧ r.submission = s.submission ∧
      r.validNewsLetter = s.validNewsLetter ∧
      r.validNewsLetterCustom = s.validNewsLetterCustom ∧
      r.subscribe = s.subscribe ∧ r.subscribeCustom = s.subscribeCustom
  | .UPDATE_CONFIRMATION v =>
      r.email = s.email ∧ r.name = s.name ∧ r.phone = s.phone ∧
      r.customFields = s.customFields ∧ r.confirmation = v ∧
      r.invalidEmail = s.invalidEmail ∧ r.invalidName = s.invalidName ∧
      r.invalidPhone = s.invalidPhone ∧ r.submission = s.submission ∧
      r.validNewsLetter = s.validNewsLetter ∧
      r.validNewsLetterCustom = s.validNewsLetterCustom ∧
      r.subscribe = s.subscribe ∧ r.subscribeCustom = s.subscribeCustom
  | .SET_INVALID_EMAIL v =>
      r.email = s.email ∧ r.name = s.name ∧ r.phone = s.phone ∧
      r.customFields = s.customFields ∧ r.confirmation = s.confirmation ∧
      r.invalidEmail = v ∧ r.invalidName = s.invalidName ∧
      r.invalidPhone = s.invalidPhone ∧ r.submission = s.submission ∧
      r.validNewsLetter = s.validNewsLetter ∧
      r.validNewsLetterCustom = s.validNewsLetterCustom ∧
      r.subscribe = s.subscribe ∧ r.subscribeCustom = s.subscribeCustom
  | .SET_INVALID_NAME v =>
      r.email = s.email ∧ r.name = s.name ∧ r.phone = s.phone ∧
      r.customFields = s.customFields ∧ r.confirmation = s.confirmation ∧
      r.invalidEmail = s.invalidEmail ∧ r.invalidName = v ∧
      r.invalidPhone = s.invalidPhone ∧ r.submission = s.submission ∧
      r.validNewsLetter = s.validNewsLetter ∧
      r.validNewsLetterCustom = s.validNewsLetterCustom ∧
      r.subscribe = s.subscribe ∧ r.subscribeCustom = s.subscribeCustom
  | .SET_INVALID_PHONE v =>
      r.email = s.email ∧ r.name = s.name ∧ r.phone = s.phone ∧
      r.customFields = s.customFields ∧ r.confirmation = s.confirmation ∧
      r.invalidEmail = s.invalidEmail ∧ r.invalidName = s.invalidName ∧
      r.invalidPhone = v ∧ r.submission = s.submission ∧
      r.validNewsLetter = s.validNewsLetter ∧
      r.validNewsLetterCustom = s.validNewsLetterCustom ∧
      r.subscribe = s.subscribe ∧ r.subscribeCustom = s.subscribeCustom
  | .SET_CUSTOM_VALUES v =>
      r.email = s.email ∧ r.name = s.name ∧ r.phone = s.phone ∧
      r.customFields = v ∧ r.confirmation = s.confirmation ∧
      r.invalidEmail = s.invalidEmail ∧ r.invalidName = s.invalidName ∧
      r.invalidPhone = s.invalidPhone ∧ r.submission = s.submission ∧
      r.validNewsLetter = s.validNewsLetter ∧
      r.validNewsLetterCustom = s.validNewsLetterCustom ∧
      r.subscribe = s.subscribe ∧ r.subscribeCustom = s.subscribeCustom
  | .SET_MUTATION_VALUES v =>
      r.email = s.email ∧ r.name = s.name ∧ r.phone = s.phone ∧
      r.customFields = s.customFields ∧ r.confirmation = s.confirmation ∧
      r.invalidEmail = s.invalidEmail ∧ r.invalidName = s.invalidName ∧
      r.invalidPhone = s.invalidPhone ∧ r.submission = v ∧
      r.validNewsLetter = s.validNewsLetter ∧
      r.validNewsLetterCustom = s.validNewsLetterCustom ∧
      r.subscribe = s.subscribe ∧ r.subscribeCustom = s.subscribeCustom
  | .SET_QUERY_VALUES v =>
      r.email = s.email ∧ r.name = s.name ∧ r.phone = s.phone ∧
      r.customFields = s.customFields ∧ r.confirmation = s.confirmation ∧
      r.invalidEmail = s.invalidEmail ∧ r.invalidName = s.invalidName ∧
      r.invalidPhone = s.invalidPhone ∧ r.submission = s.submission ∧
      r.validNewsLetter = v ∧
      r.validNewsLetterCustom = s.validNewsLetterCustom ∧
      r.subscribe = s.subscribe ∧ r.subscribeCustom = s.subscribeCustom

/-- C7: for every state and every dispatched action,
newsletterContextReducer replaces exactly the field targeted by the action's
type with the action's value and preserves each of the other twelve fields
unchanged. -/
theorem reducer_replaces_exactly_targeted_field (F : Type) (s : State F)
    (a : Action) :
    framePreserved s (newsletterContextReducer s a) a := by
  cases a <;>
    exact ⟨rfl, rfl, rfl, rfl, rfl, rfl, rfl, rfl, rfl, rfl, rfl, rfl, rfl⟩

/-- C8: reading the newsletter state or the dispatch function outside the
provider fails loudly: both hooks yield a thrown error whose message names
the missing NewsletterContextProvider. -/
theorem hooks_throw_outside_provider (F D : Type) :
    (∃ msg, useNewsletterState F none = .error msg ∧
      strContains msg "NewsletterContextProvider" = true) ∧
    (∃ msg, useNewsletterDispatch D none = .error msg ∧
      strContains msg "NewsletterContextProvider" = true) :=
  ⟨⟨_, rfl, by decide⟩, ⟨_, rfl, by decide⟩⟩

/-- C3 counterexample: a dedup-query failure dispatched through
SET_QUERY_VALUES lands in the validNewsLetter slot, not in the submission
slot, and the component keeps rendering the form shell — not the error view —
even though every override is supplied. This falsifies the claim that a
dedup-query failure populates legacySubmission (the submission state) as
failed and makes the Presentation Layer render the error view. -/
theorem query_failure_not_surfaced_cex :
    (newsletterContextReducer initialState
        (.SET_QUERY_VALUES
          { error := some "network error", data := none, loading := false })
      ).validNewsLetter.error = some "network error" ∧
    (newsletterContextReducer initialState
        (.SET_QUERY_VALUES
          { error := some "network error", data := none, loading := false })
      ).submission.error = none ∧
    render ⟨true, true, true⟩
      (newsletterContextReducer initialState
        (.SET_QUERY_VALUES
          { error := some "network error", data := none, loading := false }))
      = .formView ∧
    View.formView ≠ View.errorView true := by
  decide

/-- C3 amended: a legacy create-mutation failure (dispatched through
SET_MUTATION_VALUES with an error and loading over) populates the submission
state as failed and the component renders the error view; a dedup-query
failure (dispatched through SET_QUERY_VALUES) leaves the submission state
untouched and leaves the rendered output exactly as it was — the error view
is never triggered by it. -/
theorem legacy_failure_renders_error_query_failure_does_not (F : Type)
    (s : State F) (e : String) (p : RenderProps) (q : QueryState) :
    (newsletterContextReducer s
        (.SET_MUTATION_VALUES { error := some e, data := none, loading := false })
      ).submission.error = some e ∧
    render p (newsletterContextReducer s
        (.SET_MUTATION_VALUES { error := some e, data := none, loading := false }))
      = .errorView p.hasErrorState ∧
    (newsletterContextReducer s (.SET_QUERY_VALUES q)).submission
      = s.submission ∧
    render p (newsletterContextReducer s (.SET_QUERY_VALUES q))
      = render p s :=
  ⟨rfl, rfl, rfl, rfl⟩

/-- C5: on every render the output of the component's branch chain is exactly
the spec's four-way priority state machine — loading (pending submission with
a LoadingState override), then error, then success on a non-empty
created-document identifier with the override receiving the submitted email,
name and phone, else the form shell. -/
theorem render_matches_spec_priority (p : RenderProps) (F : Type)
    (s : State F) :
    render p s = renderSpecced p s := by
  rcases p with ⟨he, hsucc, hl⟩
  rcases s with ⟨em, nm, ph, cf, co, ie, inm, iph, sub, q, g1, g2, g3⟩
  rcases sub with ⟨err, data, loading⟩
  rcases data with _ | md
  · cases loading <;> cases hl <;> rcases err with _ | e <;> rfl
  · rcases md with ⟨cdoc⟩
    rcases cdoc with _ | cd
    · cases loading <;> cases hl <;> rcases err with _ | e <;> rfl
    · rcases cd with ⟨docid⟩
      cases loading <;> cases hl <;> rcases err with _ | e <;>
        cases hid : (docid != "") <;> cases hsucc <;>
          simp [render, renderSpecced, truthyDocumentId, documentIdOf, hid]

/-- C4: every submit dispatches all three invalid-flags, overwriting them
with the freshly computed values whatever the outcome; an absent (null) name
or phone yields a false invalid-flag; and when any field is invalid the
handler stops at those three dispatches — no tracking event, no native
write, no dedup query, no legacy mutation. -/
theorem submit_dispatches_flags_and_aborts_when_invalid (inp : FormInputs)
    (evId : Option String) :
    (handleSubmitTrace inp evId).take 3 =
      [.dispatch (.SET_INVALID_EMAIL (!(fieldValidity inp).1)),
       .dispatch (.SET_INVALID_NAME (!(fieldValidity inp).2.1)),
       .dispatch (.SET_INVALID_PHONE (!(fieldValidity inp).2.2))] ∧
    (inp.name = none → (!(fieldValidity inp).2.1) = false) ∧
    (inp.phone = none → (!(fieldValidity inp).2.2) = false) ∧
    (formInputsValid inp = false →
      handleSubmitTrace inp evId = (handleSubmitTrace inp evId).take 3 ∧
      (handleSubmitTrace inp evId).countP isPixelPush = 0 ∧
      (handleSubmitTrace inp evId).countP isNativeIssue = 0 ∧
      (handleSubmitTrace inp evId).countP isDedupIssue = 0 ∧
      (handleSubmitTrace inp evId).countP isLegacyIssue = 0) := by
  rcases hfv : fieldValidity inp with ⟨e, n, pv⟩
  refine ⟨?_, ?_, ?_, ?_⟩
  · simp only [handleSubmitTrace, hfv]
    split <;> rfl
  · intro hname
    simp [fieldValidity, hname] at hfv ⊢
    simp [hfv]
  · intro hphone
    simp [fieldValidity, hphone] at hfv ⊢
    simp [hfv]
  · intro hinv
    rw [formInputsValid, hfv] at hinv
    have hinv2 : (n && pv && e) = false := hinv
    have htrace : handleSubmitTrace inp evId =
        [.dispatch (.SET_INVALID_EMAIL (!e)),
         .dispatch (.SET_INVALID_NAME (!n)),
         .dispatch (.SET_INVALID_PHONE (!pv))] := by
      simp [handleSubmitTrace, hfv, hinv2]
    rw [htrace]
    exact ⟨rfl, rfl, rfl, rfl, rfl⟩

/-- Index of the first trace element satisfying the recognizer, if any. -/
def idxOf? (p : Effect → Bool) : List Effect → Option Nat
  | [] => none
  | e :: es => if p e then some 0 else (idxOf? p es).map (· + 1)

/-- C6 counterexample: at a concrete valid submission the model's trace fixes
the order of the suspension points — the native write's settlement sits at
index 5, strictly before the dedup query's resolution at index 7 — because
handleSubmit awaits the native subscribe call before even issuing the dedup
query. This falsifies the claim that the native write's resolution and the
dedup path's resolution race independently with no ordering guarantee. -/
theorem no_native_dedup_race_cex :
    idxOf? isNativeSettle
      (submissionTrace ⟨"x@y.com", none, none, none⟩ none
        (some { documents := some [] })) = some 5 ∧
    idxOf? isDedupResolve
      (submissionTrace ⟨"x@y.com", none, none, none⟩ none
        (some { documents := some [] })) = some 7 ∧
    5 < 7 := by
  decide

/-- C6 amended: for every valid submission the native write's settlement
(awaited by handleSubmit) causally precedes the dedup query's issuance,
which precedes the dedup query's resolution: their trace indices are always
5, 6 and 7, so the two paths do not race. -/
theorem native_settles_before_dedup (inp : FormInputs) (evId : Option String)
    (qd : Option QueryData) (h : formInputsValid inp = true) :
    idxOf? isNativeSettle (submissionTrace inp evId qd) = some 5 ∧
    idxOf? isDedupIssue (submissionTrace inp evId qd) = some 6 ∧
    idxOf? isDedupResolve (submissionTrace inp evId qd) = some 7 := by
  rcases hfv : fieldValidity inp with ⟨e, n, pv⟩
  have hb : (n && pv && e) = true := by
    rw [formInputsValid, hfv] at h
    exact h
  simp [submissionTrace, handleSubmitTrace, formInputsValid, hfv, hb, idxOf?,
    isNativeSettle, isDedupIssue, isDedupResolve]

/-- Witness for the C6 amended theorem at a concrete valid input. -/
theorem native_settles_before_dedup_witness :
    formInputsValid ⟨"a@b.com", none, none, none⟩ = true ∧
    (idxOf? isNativeSettle
        (submissionTrace ⟨"a@b.com", none, none, none⟩ none none) = some 5 ∧
      idxOf? isDedupIssue
        (submissionTrace ⟨"a@b.com", none, none, none⟩ none none) = some 6 ∧
      idxOf? isDedupResolve
        (submissionTrace ⟨"a@b.com", none, none, none⟩ none none) = some 7) :=
  ⟨by decide, native_settles_before_dedup ⟨"a@b.com", none, none, none⟩ none
    none (by decide)⟩

/-- Witness for the C4 theorem: at the concrete input with empty email and no
name or phone inputs, the three flags are dispatched, the absent fields count
as valid, and the invalid submit stops with no tracking event and no network
issuance. -/
theorem submit_aborts_witness :
    (handleSubmitTrace ⟨"", none, none, none⟩ none).take 3 =
      [.dispatch (.SET_INVALID_EMAIL
          (!(fieldValidity ⟨"", none, none, none⟩).1)),
       .dispatch (.SET_INVALID_NAME
          (!(fieldValidity ⟨"", none, none, none⟩).2.1)),
       .dispatch (.SET_INVALID_PHONE
          (!(fieldValidity ⟨"", none, none, none⟩).2.2))] ∧
    (!(fieldValidity ⟨"", none, none, none⟩).2.1) = false ∧
    (!(fieldValidity ⟨"", none, none, none⟩).2.2) = false ∧
    (handleSubmitTrace ⟨"", none, none, none⟩ none).countP isPixelPush = 0 ∧
    (handleSubmitTrace ⟨"", none, none, none⟩ none).countP isNativeIssue = 0 ∧
    (handleSubmitTrace ⟨"", none, none, none⟩ none).countP isDedupIssue = 0 ∧
    (handleSubmitTrace ⟨"", none, none, none⟩ none).countP isLegacyIssue
      = 0 := by
  obtain ⟨h1, h2, h3, h4⟩ :=
    submit_dispatches_flags_and_aborts_when_invalid ⟨"", none, none, none⟩
      none
  obtain ⟨g1, g2, g3, g4, g5⟩ := h4 (by decide)
  exact ⟨h1, h2 rfl, h3 rfl, g2, g3, g4, g5⟩

end StoreNewsletter
